import Mathlib

/-!
Verification development for the document ingestion and classification CLI
(`src/main.py`).  The pipeline is embedded shallowly: the event dictionary
becomes a structure with `Option` fields for keys that may be absent, the
`random` module becomes an explicit oracle, the filesystem becomes an explicit
map from paths to results, and Python exceptions become `Except`/`Option`
values.  Rationals stand in for Python floats.
-/

/-! ### String helpers (Python `in`, `.lower()`, `.endswith`) -/

/-- `charsBegin n h` : the char list `h` starts with `n`. -/
def charsBegin : List Char → List Char → Bool
  | [], _ => true
  | _ :: _, [] => false
  | a :: as, b :: bs => a == b && charsBegin as bs

/-- `charsHasSub n h` : `n` occurs as a contiguous sublist of `h`
(the semantics of Python's `needle in haystack` on strings). -/
def charsHasSub (needle : List Char) : List Char → Bool
  | [] => needle.isEmpty
  | c :: rest => charsBegin needle (c :: rest) || charsHasSub needle rest

/-- Python `needle in hay` for strings. -/
def strContains (hay needle : String) : Bool :=
  charsHasSub needle.data hay.data

/-- Python `str.lower()`, modelled characterwise (the source only relies on
ASCII keywords). -/
def lowerStr (s : String) : String :=
  ⟨s.data.map Char.toLower⟩

/-- Python `s.endswith(t)`. -/
def strEndsWith (s t : String) : Bool :=
  t.data.isSuffixOf s.data

/-! ### Randomness, clock and filesystem oracles

`random.randint` / `random.uniform` are modelled as an oracle; `Valid` is the
contract that draws fall inside the requested closed interval. -/

structure RandomOracle where
  randint : Int → Int → Int
  uniform : ℚ → ℚ → ℚ

def RandomOracle.Valid (R : RandomOracle) : Prop :=
  (∀ a b : Int, a ≤ b → a ≤ R.randint a b ∧ R.randint a b ≤ b) ∧
  (∀ a b : ℚ, a ≤ b → a ≤ R.uniform a b ∧ R.uniform a b ≤ b)

/-- A degenerate but valid oracle: every draw is the lower bound. -/
def loOracle : RandomOracle :=
  { randint := fun a _ => a, uniform := fun a _ => a }

/-- Python `round(x, 2)` modelled as arithmetic rounding to a multiple of
`1/100` (tie behaviour is irrelevant to the properties proved here). -/
def round2 (q : ℚ) : ℚ :=
  (round (q * 100) : ℤ) / 100

/-- `"{:.2f}"`-style rendering used for the simulated invoice amount. -/
def fmt2 (q : ℚ) : String :=
  let c : Int := round (q * 100)
  let cents := (c % 100).natAbs
  toString (c / 100) ++ "." ++ (if cents < 10 then "0" else "") ++ toString cents

/-! ### Data model: the event envelope (`src/main.py` event dict) -/

inductive Status where
  | INGESTED
  | EXTRACTED
  | EXTRACTION_FAILED
  | CLASSIFIED
  | ROUTED
deriving DecidableEq

/-- The Python status strings. -/
def Status.toStr : Status → String
  | .INGESTED => "INGESTED"
  | .EXTRACTED => "EXTRACTED"
  | .EXTRACTION_FAILED => "EXTRACTION_FAILED"
  | .CLASSIFIED => "CLASSIFIED"
  | .ROUTED => "ROUTED"

/-- The orchestrator's check `"FAILED" not in event["status"]`
(src/main.py:281), here in positive form. -/
def statusHasFailed (s : Status) : Bool :=
  strContains s.toStr "FAILED"

/-- A value of the extracted-entities mapping (string, number, or list of
strings).  Dates are represented as day counts. -/
inductive EntityValue where
  | str (s : String)
  | num (n : Int)
  | list (l : List String)
deriving DecidableEq

/-- The `extracted_entities` mapping, in insertion order as Python dicts. -/
abbrev Entities := List (String × EntityValue)

structure Classification where
  document_type : String
  confidence : ℚ
deriving DecidableEq

structure RoutingInfo where
  action_taken : String
  routed_at : Nat
deriving DecidableEq

/-- The event dictionary threaded through the pipeline.  Keys a fresh event
does not yet have are `none`. -/
structure Event where
  status : Status
  filename : String
  original_path : String
  size_bytes : Nat
  ingestion_time : Nat
  extracted_text : Option String := none
  extracted_entities : Option Entities := none
  classification : Option Classification := none
  routing_info : Option RoutingInfo := none
  error_message : Option String := none
deriving DecidableEq

/-- External inputs of one poll cycle: random draws, file reads keyed by path
(`Except` error = the exception's message), today's date, a timestamp, and
whether `os.rename` fails for a given filename. -/
structure PipelineCtx where
  R : RandomOracle
  readFile : String → Except String String
  today : Nat
  now : Nat
  moveFails : String → Bool

/-! ### `mock_llm_entity_extraction` (src/main.py:31-77) -/

def mock_llm_entity_extraction (R : RandomOracle) (today : Nat)
    (text_content : String) : Entities :=
  let text_lower := lowerStr text_content
  let entities : Entities := [("source_text_length", .num (text_content.length : Int))]
  if strContains text_lower "invoice" then
    entities ++
      [("InvoiceID", .str ("INV-" ++ toString (R.randint 1000 9999))),
       ("Amount", .str ("$" ++ fmt2 (R.uniform 100 5000))),
       ("DueDate", .num ((today : Int) + 30))]
  else if strContains text_lower "contract" then
    entities ++
      [("ContractingParties", .list ["ABC Corp", "XYZ Inc."]),
       ("EffectiveDate", .num (today : Int)),
       ("Term", .str (toString (R.randint 1 5) ++ " Years"))]
  else if strContains text_lower "resume" then
    entities ++
      [("CandidateName", .str "Jane Doe"),
       ("YearsOfExperience", .num (R.randint 2 10)),
       ("KeySkills", .list ["Python", "GenAI", "System Design"])]
  else
    entities ++
      [("error", .str "Could not determine document structure for entity extraction.")]

/-! ### IngestorAgent (src/main.py:84-118) -/

def DOCS_TO_PROCESS_DIR : String := "documents_to_process"

def PROCESSED_DOCS_DIR : String := "processed_documents"

instance {ε α : Type} [DecidableEq ε] [DecidableEq α] : DecidableEq (Except ε α) := fun x y =>
  match x, y with
  | .ok a, .ok b =>
    if h : a = b then .isTrue (congrArg Except.ok h)
    else .isFalse fun hc => h (Except.ok.inj hc)
  | .ok _, .error _ => .isFalse fun hc => Except.noConfusion hc
  | .error _, .ok _ => .isFalse fun hc => Except.noConfusion hc
  | .error a, .error b =>
    if h : a = b then .isTrue (congrArg Except.error h)
    else .isFalse fun hc => h (Except.error.inj hc)

/-- One directory entry as seen by `os.listdir`: its name, whether
`os.path.isfile` holds, and the result of `os.path.getsize` (`Except` error =
an `OSError` message). -/
structure DirEntry where
  name : String
  isFile : Bool
  size : Except String Nat
deriving DecidableEq

/-- `IngestorAgent.run`: walk the listing in order; the first regular file
whose size can be read yields an `INGESTED` event and the scan returns
immediately; a `getsize` failure is logged and the scan continues. -/
def IngestorAgent.run (watch_directory : String) (now : Nat) :
    List DirEntry → Option Event
  | [] => none
  | entry :: rest =>
    if entry.isFile then
      match entry.size with
      | .ok file_size => some
          { status := .INGESTED
            filename := entry.name
            original_path := watch_directory ++ "/" ++ entry.name
            size_bytes := file_size
            ingestion_time := now }
      | .error _ => IngestorAgent.run watch_directory now rest
    else IngestorAgent.run watch_directory now rest

/-! ### ExtractorAgent (src/main.py:121-159) -/

/-- The placeholder OCR text substituted for non-`.txt` files
(src/main.py:140). -/
def simulatedOcrText (filename : String) : String :=
  "Simulated OCR content for " ++ filename ++
    ". Contains keywords: invoice, contract, or resume."

/-- Resolving the source reference to text: `.txt` files are read (and the
read may fail); any other file gets the fixed placeholder. -/
def resolveContent (ctx : PipelineCtx) (event : Event) : Except String String :=
  if strEndsWith event.original_path ".txt" then ctx.readFile event.original_path
  else .ok (simulatedOcrText event.filename)

/-- `ExtractorAgent.run` with the entity-extraction provider abstracted, so
that non-invocation of the provider on the failure path is expressible. -/
def ExtractorAgent.runWith (provider : String → Entities) (ctx : PipelineCtx)
    (event : Event) : Event :=
  match resolveContent ctx event with
  | .ok text_content =>
      { event with status := .EXTRACTED
                   extracted_text := some text_content
                   extracted_entities := some (provider text_content) }
  | .error e =>
      { event with status := .EXTRACTION_FAILED
                   error_message := some e }

def ExtractorAgent.run (ctx : PipelineCtx) (event : Event) : Event :=
  ExtractorAgent.runWith (mock_llm_entity_extraction ctx.R ctx.today) ctx event

/-! ### ClassifierAgent (src/main.py:162-200) -/

/-- The keyword if/elif chain of `ClassifierAgent.run` (src/main.py:176-186),
producing the `(doc_type, confidence)` pair before rounding. -/
def classifyPair (R : RandomOracle) (text_to_classify : String) : String × ℚ :=
  if strContains text_to_classify "invoice" then
    ("Invoice", R.uniform (90/100) (99/100))
  else if strContains text_to_classify "contract" then
    ("Contract", R.uniform (85/100) (95/100))
  else if strContains text_to_classify "resume" then
    ("Resume", R.uniform (88/100) (98/100))
  else
    ("Unknown", R.uniform (40/100) (60/100))

def ClassifierAgent.run (R : RandomOracle) (event : Event) : Event :=
  let dc := classifyPair R (lowerStr (event.extracted_text.getD ""))
  { event with status := .CLASSIFIED
               classification := some { document_type := dc.1
                                        confidence := round2 dc.2 } }

/-- The document-type label the classifier's keyword chain produces for a
given (already lowercased) text. -/
def classifyDocType (text_lower : String) : String :=
  if strContains text_lower "invoice" then "Invoice"
  else if strContains text_lower "contract" then "Contract"
  else if strContains text_lower "resume" then "Resume"
  else "Unknown"

/-! ### RouterAgent (src/main.py:203-238) -/

/-- Rendering of the entities dict inside the invoice f-string
(stands in for Python's `str(dict)`). -/
def EntityValue.render : EntityValue → String
  | .str s => s
  | .num n => toString n
  | .list l => "[" ++ String.intercalate ", " l ++ "]"

def renderEntities (ents : Entities) : String :=
  "\x7b" ++ String.intercalate ", " (ents.map (fun p => p.1 ++ ": " ++ p.2.render)) ++ "\x7d"

/-- The router's `doc_type` lookup:
`event.get("classification", {}).get("document_type", "Unknown")`. -/
def eventDocType (event : Event) : String :=
  (event.classification.getD { document_type := "Unknown", confidence := 0 }).document_type

/-- The event update shared by all routing branches (src/main.py:229-234). -/
def routerOut (now : Nat) (event : Event) (routing_action : String) : Event :=
  { event with status := .ROUTED
               routing_info := some { action_taken := routing_action
                                      routed_at := now } }

/-- `RouterAgent.run`.  The invoice branch evaluates
`event["extracted_entities"]`, which raises `KeyError` when the key is absent
— modelled as `none` (the orchestrator has no handler for it). -/
def RouterAgent.run (now : Nat) (event : Event) : Option Event :=
  if eventDocType event = "Invoice" then
    match event.extracted_entities with
    | some ents =>
        some (routerOut now event ("Calling ERP API with invoice data: " ++ renderEntities ents))
    | none => none
  else if eventDocType event = "Contract" then
    some (routerOut now event "Archiving contract to legal department database.")
  else if eventDocType event = "Resume" then
    some (routerOut now event "Forwarding resume to HR Applicant Tracking System.")
  else
    some (routerOut now event "Flagging document for manual review.")

/-! ### Orchestrator (src/main.py:244-304) -/

/-- The per-event stage sequencing of the main loop (src/main.py:280-283),
with the classifier and router stages abstracted so that their non-invocation
on the failure path is expressible. -/
def processEventWith (classify : Event → Event) (route : Event → Option Event)
    (ctx : PipelineCtx) (e : Event) : Option Event :=
  let e1 := ExtractorAgent.run ctx e
  if statusHasFailed e1.status then some e1
  else route (classify e1)

def processEvent (ctx : PipelineCtx) (e : Event) : Option Event :=
  processEventWith (ClassifierAgent.run ctx.R) (RouterAgent.run ctx.now) ctx e

/-- The two directories as the orchestrator sees them: the polled intake
listing and the names present in the processed directory. -/
structure World where
  intake : List DirEntry
  processed : List String
deriving DecidableEq

/-- One iteration of the main loop (src/main.py:268-304): ingest at most one
file, run it through the pipeline, then attempt `os.rename` into the
processed directory (the attempt is made whatever the final status; a rename
failure is caught and logged, src/main.py:298-299).  Returns the new world and
the final event, if any. -/
def pollCycle (ctx : PipelineCtx) (w : World) : World × Option Event :=
  match IngestorAgent.run DOCS_TO_PROCESS_DIR ctx.now w.intake with
  | none => (w, none)
  | some event =>
    match processEvent ctx event with
    | none => (w, none)
    | some out =>
      if ctx.moveFails out.filename then
        (w, some out)
      else
        (⟨w.intake.eraseP (fun d => d.name == out.filename),
          w.processed ++ [out.filename]⟩, some out)

/-! ### Helper lemmas -/

theorem loOracle_valid : loOracle.Valid :=
  ⟨fun a _ h => ⟨le_refl a, h⟩, fun a _ h => ⟨le_refl a, h⟩⟩

theorem round2_mono {x y : ℚ} (h : x ≤ y) : round2 x ≤ round2 y := by
  unfold round2
  have hr : round (x * 100) ≤ round (y * 100) := by
    rw [round_eq, round_eq]
    exact Int.floor_mono (by linarith)
  have h100 : (0:ℚ) ≤ 100 := by norm_num
  exact div_le_div_of_nonneg_right (by exact_mod_cast hr) h100

theorem round2_int_div (z : ℤ) : round2 ((z : ℚ) / 100) = (z : ℚ) / 100 := by
  unfold round2
  rw [div_mul_cancel₀ _ (by norm_num : (100:ℚ) ≠ 0), round_intCast]

theorem round2_mem {a b : ℤ} {q : ℚ} (h1 : (a:ℚ)/100 ≤ q) (h2 : q ≤ (b:ℚ)/100) :
    (a:ℚ)/100 ≤ round2 q ∧ round2 q ≤ (b:ℚ)/100 := by
  constructor
  · have := round2_mono h1; rwa [round2_int_div] at this
  · have := round2_mono h2; rwa [round2_int_div] at this

theorem round2_uniform_mem (R : RandomOracle) (hR : R.Valid) (a b : ℤ)
    (h : (a:ℚ)/100 ≤ (b:ℚ)/100) :
    (a:ℚ)/100 ≤ round2 (R.uniform ((a:ℚ)/100) ((b:ℚ)/100)) ∧
    round2 (R.uniform ((a:ℚ)/100) ((b:ℚ)/100)) ≤ (b:ℚ)/100 := by
  obtain ⟨h1, h2⟩ := hR.2 _ _ h
  exact round2_mem h1 h2

theorem charsHasSub_append_right (n l2 : List Char) (h : charsHasSub n l2 = true) :
    ∀ l1 : List Char, charsHasSub n (l1 ++ l2) = true := by
  intro l1
  induction l1 with
  | nil => simpa using h
  | cons c t ih =>
      show (charsBegin n (c :: (t ++ l2)) || charsHasSub n (t ++ l2)) = true
      rw [ih, Bool.or_true]

theorem statusHasFailed_eq_true : statusHasFailed .EXTRACTION_FAILED = true := by decide

theorem statusHasFailed_eq_false_of_ne (s : Status) (h : s ≠ .EXTRACTION_FAILED) :
    statusHasFailed s = false := by
  cases s <;> first | decide | exact absurd rfl h

/-- Shape of the extractor's output: success carries text and entities,
failure carries the error message and leaves every other key as it was. -/
theorem extractor_shape (ctx : PipelineCtx) (e : Event) :
    (∃ text, resolveContent ctx e = .ok text ∧
      ExtractorAgent.run ctx e =
        { e with status := .EXTRACTED
                 extracted_text := some text
                 extracted_entities := some (mock_llm_entity_extraction ctx.R ctx.today text) }) ∨
    (∃ msg, resolveContent ctx e = .error msg ∧
      ExtractorAgent.run ctx e =
        { e with status := .EXTRACTION_FAILED
                 error_message := some msg }) := by
  cases h : resolveContent ctx e with
  | error msg =>
      right
      exact ⟨msg, rfl, by simp [ExtractorAgent.run, ExtractorAgent.runWith, h]⟩
  | ok text =>
      left
      exact ⟨text, rfl, by simp [ExtractorAgent.run, ExtractorAgent.runWith, h]⟩

/-- The classifier's output shape: only `status` and `classification`
change. -/
theorem classifier_shape (R : RandomOracle) (e : Event) :
    ClassifierAgent.run R e =
      { e with status := .CLASSIFIED
               classification :=
                 some { document_type := (classifyPair R (lowerStr (e.extracted_text.getD ""))).1
                        confidence := round2 (classifyPair R (lowerStr (e.extracted_text.getD ""))).2 } } := by
  simp [ClassifierAgent.run]

/-- Whenever the router returns an event, that event is `ROUTED`, has
`routing_info`, and all other keys are untouched. -/
theorem router_some_shape (now : Nat) (e out : Event) (h : RouterAgent.run now e = some out) :
    out.status = .ROUTED ∧ out.routing_info.isSome ∧ out.classification = e.classification ∧
    out.extracted_entities = e.extracted_entities ∧ out.filename = e.filename ∧
    out.original_path = e.original_path ∧ out.error_message = e.error_message ∧
    out.extracted_text = e.extracted_text := by
  unfold RouterAgent.run at h
  split_ifs at h
  · split at h
    · cases h; simp [routerOut]
    · cases h
  · cases h; simp [routerOut]
  · cases h; simp [routerOut]
  · cases h; simp [routerOut]

/-- The router returns an event whenever `extracted_entities` is present. -/
theorem router_isSome_of_entities (now : Nat) (e : Event)
    (h : e.extracted_entities.isSome) : (RouterAgent.run now e).isSome := by
  unfold RouterAgent.run
  split_ifs
  · cases he : e.extracted_entities with
    | none => rw [he] at h; simp at h
    | some ents => simp [he]
  · simp
  · simp
  · simp

theorem classifyPair_fst (R : RandomOracle) (t : String) :
    (classifyPair R t).1 = classifyDocType t := by
  unfold classifyPair classifyDocType
  split_ifs <;> rfl

/-! ### Claims -/

/-- C3 counterexample: on keyword-free input (`"Lorem ipsum"`), the entity
extraction provider's result is not the singleton `error` mapping the claim
describes — it also carries the `source_text_length` key. -/
theorem C3_counterexample :
    (mock_llm_entity_extraction loOracle 0 "Lorem ipsum").map Prod.fst =
      ["source_text_length", "error"] ∧
    (mock_llm_entity_extraction loOracle 0 "Lorem ipsum").map Prod.fst ≠ ["error"] := by
  decide

/-- C3 (amended): for every input text in which none of the keywords
"invoice", "contract", "resume" occurs case-insensitively, the provider
returns a mapping with exactly the `source_text_length` field and an `error`
field saying the document structure could not be determined, and no
type-specific keys. -/
theorem C3_no_keyword_result (R : RandomOracle) (today : Nat) (text : String)
    (h_inv : strContains (lowerStr text) "invoice" = false)
    (h_con : strContains (lowerStr text) "contract" = false)
    (h_res : strContains (lowerStr text) "resume" = false) :
    mock_llm_entity_extraction R today text =
      [("source_text_length", .num (text.length : Int)),
       ("error", .str "Could not determine document structure for entity extraction.")] := by
  simp [mock_llm_entity_extraction, h_inv, h_con, h_res]

/-- C3 witness: the amended claim evaluated at `"Lorem ipsum"`. -/
theorem C3_no_keyword_result_witness :
    mock_llm_entity_extraction loOracle 0 "Lorem ipsum" =
      [("source_text_length", .num (("Lorem ipsum").length : Int)),
       ("error", .str "Could not determine document structure for entity extraction.")] :=
  C3_no_keyword_result loOracle 0 "Lorem ipsum" (by decide) (by decide) (by decide)

/-- C4: when resolving an `INGESTED` event's content fails, the extractor
returns the event with status `EXTRACTION_FAILED` and the exception's message
in `error_message`; the result is the same for every entity-extraction
provider (so the provider is not invoked), and no fault escapes. -/
theorem C4_extraction_failure_contained (provider : String → Entities)
    (ctx : PipelineCtx) (e : Event) (msg : String) (_he : e.status = .INGESTED)
    (hfail : resolveContent ctx e = .error msg) :
    ExtractorAgent.runWith provider ctx e =
      { e with status := .EXTRACTION_FAILED, error_message := some msg } ∧
    ExtractorAgent.runWith provider ctx e = ExtractorAgent.run ctx e := by
  constructor
  · simp [ExtractorAgent.runWith, hfail]
  · simp [ExtractorAgent.run, ExtractorAgent.runWith, hfail]

def c4Ctx : PipelineCtx :=
  { R := loOracle
    readFile := fun _ => .error "Permission denied"
    today := 0, now := 0, moveFails := fun _ => false }

def c4Ev : Event :=
  { status := .INGESTED, filename := "locked.txt",
    original_path := "documents_to_process/locked.txt",
    size_bytes := 9, ingestion_time := 0 }

/-- C4 witness: a concrete unreadable `.txt` intake file. -/
theorem C4_witness :
    ExtractorAgent.runWith (fun _ => []) c4Ctx c4Ev =
      { c4Ev with status := .EXTRACTION_FAILED, error_message := some "Permission denied" } ∧
    ExtractorAgent.runWith (fun _ => []) c4Ctx c4Ev = ExtractorAgent.run c4Ctx c4Ev :=
  C4_extraction_failure_contained (fun _ => []) c4Ctx c4Ev "Permission denied" rfl (by decide)

/-- C5: the classifier never fails — it always returns the event with status
`CLASSIFIED`; the document type is the first case-insensitive keyword match of
`extracted_text` in priority order invoice, contract, resume (else Unknown);
and the confidence is a two-decimal value inside the type-specific range
(Invoice 0.90–0.99, Contract 0.85–0.95, Resume 0.88–0.98, Unknown
0.40–0.60). -/
theorem C5_classifier_total (R : RandomOracle) (e : Event) (hR : R.Valid) :
    (ClassifierAgent.run R e).status = .CLASSIFIED ∧
    ∃ c : ℚ,
      (ClassifierAgent.run R e).classification =
        some { document_type := classifyDocType (lowerStr (e.extracted_text.getD ""))
               confidence := c } ∧
      (∃ k : ℤ, c = (k : ℚ) / 100) ∧
      (classifyDocType (lowerStr (e.extracted_text.getD "")) = "Invoice" →
        90/100 ≤ c ∧ c ≤ 99/100) ∧
      (classifyDocType (lowerStr (e.extracted_text.getD "")) = "Contract" →
        85/100 ≤ c ∧ c ≤ 95/100) ∧
      (classifyDocType (lowerStr (e.extracted_text.getD "")) = "Resume" →
        88/100 ≤ c ∧ c ≤ 98/100) ∧
      (classifyDocType (lowerStr (e.extracted_text.getD "")) = "Unknown" →
        40/100 ≤ c ∧ c ≤ 60/100) := by
  have hshape := classifier_shape R e
  refine ⟨by rw [hshape], ?_⟩
  refine ⟨round2 (classifyPair R (lowerStr (e.extracted_text.getD ""))).2,
    by rw [hshape, classifyPair_fst],
    ⟨round ((classifyPair R (lowerStr (e.extracted_text.getD ""))).2 * 100), rfl⟩,
    ?_, ?_, ?_, ?_⟩ <;>
  · unfold classifyPair classifyDocType
    split_ifs <;> intro hdt <;>
      first
        | exact absurd hdt (by decide)
        | (have h := round2_uniform_mem R hR 90 99 (by norm_num); push_cast at h; exact h)
        | (have h := round2_uniform_mem R hR 85 95 (by norm_num); push_cast at h; exact h)
        | (have h := round2_uniform_mem R hR 88 98 (by norm_num); push_cast at h; exact h)
        | (have h := round2_uniform_mem R hR 40 60 (by norm_num); push_cast at h; exact h)

def c5Ev : Event :=
  { status := .EXTRACTED, filename := "a.txt", original_path := "documents_to_process/a.txt",
    size_bytes := 3, ingestion_time := 0, extracted_text := some "this contract please" }

/-- C5 witness: a concrete extracted event containing the word "contract". -/
theorem C5_witness :
    (ClassifierAgent.run loOracle c5Ev).status = .CLASSIFIED ∧
    ∃ c : ℚ,
      (ClassifierAgent.run loOracle c5Ev).classification =
        some { document_type := classifyDocType (lowerStr (c5Ev.extracted_text.getD ""))
               confidence := c } ∧
      (∃ k : ℤ, c = (k : ℚ) / 100) ∧
      (classifyDocType (lowerStr (c5Ev.extracted_text.getD "")) = "Invoice" →
        90/100 ≤ c ∧ c ≤ 99/100) ∧
      (classifyDocType (lowerStr (c5Ev.extracted_text.getD "")) = "Contract" →
        85/100 ≤ c ∧ c ≤ 95/100) ∧
      (classifyDocType (lowerStr (c5Ev.extracted_text.getD "")) = "Resume" →
        88/100 ≤ c ∧ c ≤ 98/100) ∧
      (classifyDocType (lowerStr (c5Ev.extracted_text.getD "")) = "Unknown" →
        40/100 ≤ c ∧ c ≤ 60/100) :=
  C5_classifier_total loOracle c5Ev loOracle_valid

/-- C10: the classifier is total on malformed input: if `extracted_text` is
absent it treats the text as empty, returning the event with status
`CLASSIFIED` and document type `Unknown` without raising. -/
theorem C10_missing_text (R : RandomOracle) (e : Event) (h : e.extracted_text = none) :
    (ClassifierAgent.run R e).status = .CLASSIFIED ∧
    ((ClassifierAgent.run R e).classification.map Classification.document_type) =
      some "Unknown" := by
  rw [classifier_shape R e, h]
  refine ⟨rfl, ?_⟩
  simp [classifyPair_fst]
  decide

def c10Ev : Event :=
  { status := .EXTRACTED, filename := "b.txt", original_path := "documents_to_process/b.txt",
    size_bytes := 0, ingestion_time := 0 }

/-- C10 witness: a concrete event with no `extracted_text` key. -/
theorem C10_witness :
    (ClassifierAgent.run loOracle c10Ev).status = .CLASSIFIED ∧
    ((ClassifierAgent.run loOracle c10Ev).classification.map Classification.document_type) =
      some "Unknown" :=
  C10_missing_text loOracle c10Ev rfl

theorem statusHasFailed_EXTRACTED : statusHasFailed .EXTRACTED = false := by decide

/-- C2: from `INGESTED`, the extractor yields `EXTRACTED` or
`EXTRACTION_FAILED`; on failure the orchestrator's result is the failed event
itself for every choice of classifier/router stage (so neither is invoked and
the status never changes again); on success both remaining stages run
unconditionally, the classifier yields `CLASSIFIED` and the final event is
`ROUTED`. -/
theorem C2_status_machine (ctx : PipelineCtx) (e : Event) (_he : e.status = .INGESTED) :
    ((ExtractorAgent.run ctx e).status = .EXTRACTED ∨
     (ExtractorAgent.run ctx e).status = .EXTRACTION_FAILED) ∧
    ((ExtractorAgent.run ctx e).status = .EXTRACTION_FAILED →
      ∀ (classify : Event → Event) (route : Event → Option Event),
        processEventWith classify route ctx e = some (ExtractorAgent.run ctx e)) ∧
    ((ExtractorAgent.run ctx e).status = .EXTRACTED →
      processEvent ctx e =
        RouterAgent.run ctx.now (ClassifierAgent.run ctx.R (ExtractorAgent.run ctx e)) ∧
      (ClassifierAgent.run ctx.R (ExtractorAgent.run ctx e)).status = .CLASSIFIED ∧
      ∀ out, processEvent ctx e = some out → out.status = .ROUTED) := by
  refine ⟨?_, ?_, ?_⟩
  · rcases extractor_shape ctx e with ⟨t, _, hrun⟩ | ⟨m, _, hrun⟩
    · left; rw [hrun]
    · right; rw [hrun]
  · intro hfail classify route
    simp only [processEventWith, hfail, statusHasFailed_eq_true, if_true]
  · intro hsucc
    have hproc : processEvent ctx e =
        RouterAgent.run ctx.now (ClassifierAgent.run ctx.R (ExtractorAgent.run ctx e)) := by
      simp only [processEvent, processEventWith, hsucc, statusHasFailed_EXTRACTED,
        Bool.false_eq_true, if_false]
    refine ⟨hproc, by rw [classifier_shape], ?_⟩
    intro out hout
    rw [hproc] at hout
    exact (router_some_shape _ _ _ hout).1

def c2Ctx : PipelineCtx :=
  { R := loOracle
    readFile := fun _ => .ok "plain invoice text"
    today := 0, now := 3, moveFails := fun _ => false }

def c2Ev : Event :=
  { status := .INGESTED, filename := "inv.txt",
    original_path := "documents_to_process/inv.txt",
    size_bytes := 18, ingestion_time := 0 }

/-- C2 witness: a concrete ingested `.txt` file. -/
theorem C2_witness :
    ((ExtractorAgent.run c2Ctx c2Ev).status = .EXTRACTED ∨
     (ExtractorAgent.run c2Ctx c2Ev).status = .EXTRACTION_FAILED) ∧
    ((ExtractorAgent.run c2Ctx c2Ev).status = .EXTRACTION_FAILED →
      ∀ (classify : Event → Event) (route : Event → Option Event),
        processEventWith classify route c2Ctx c2Ev = some (ExtractorAgent.run c2Ctx c2Ev)) ∧
    ((ExtractorAgent.run c2Ctx c2Ev).status = .EXTRACTED →
      processEvent c2Ctx c2Ev =
        RouterAgent.run c2Ctx.now (ClassifierAgent.run c2Ctx.R (ExtractorAgent.run c2Ctx c2Ev)) ∧
      (ClassifierAgent.run c2Ctx.R (ExtractorAgent.run c2Ctx c2Ev)).status = .CLASSIFIED ∧
      ∀ out, processEvent c2Ctx c2Ev = some out → out.status = .ROUTED) :=
  C2_status_machine c2Ctx c2Ev rfl

/-- C7: an event that exits the pipeline satisfies exactly one of
(a) `ROUTED` with `classification` and `routing_info` present, or
(b) `EXTRACTION_FAILED` with `error_message` present; a `ROUTED` exit has
`extracted_entities` present and a failed exit has it absent, and on the
success path every intermediate event at or beyond `EXTRACTED` carries
`extracted_entities`. -/
theorem C7_exit_dichotomy (ctx : PipelineCtx) (e out : Event)
    (_he : e.status = .INGESTED) (hent : e.extracted_entities = none)
    (hout : processEvent ctx e = some out) :
    (((out.status = .ROUTED ∧ out.classification.isSome ∧ out.routing_info.isSome) ∧
       ¬(out.status = .EXTRACTION_FAILED ∧ out.error_message.isSome)) ∨
     ((out.status = .EXTRACTION_FAILED ∧ out.error_message.isSome) ∧
       ¬(out.status = .ROUTED ∧ out.classification.isSome ∧ out.routing_info.isSome))) ∧
    (out.status = .ROUTED → out.extracted_entities.isSome) ∧
    (out.status = .EXTRACTION_FAILED → out.extracted_entities = none) ∧
    ((ExtractorAgent.run ctx e).status = .EXTRACTED →
      (ExtractorAgent.run ctx e).extracted_entities.isSome ∧
      (ClassifierAgent.run ctx.R (ExtractorAgent.run ctx e)).extracted_entities.isSome) := by
  rcases extractor_shape ctx e with ⟨t, _, hrun⟩ | ⟨m, _, hrun⟩
  · have hproc : processEvent ctx e =
        RouterAgent.run ctx.now (ClassifierAgent.run ctx.R (ExtractorAgent.run ctx e)) := by
      simp only [processEvent, processEventWith, hrun, statusHasFailed_EXTRACTED,
        Bool.false_eq_true, if_false]
    rw [hproc] at hout
    obtain ⟨hst, hri, hcl, hee, -, -, -, -⟩ := router_some_shape _ _ _ hout
    rw [classifier_shape] at hcl hee
    simp only [hrun] at hcl hee
    refine ⟨Or.inl ⟨⟨hst, ?_, hri⟩, ?_⟩, fun _ => ?_, fun habs => ?_, fun _ => ?_⟩
    · rw [hcl]; rfl
    · rintro ⟨habs, -⟩; rw [hst] at habs; cases habs
    · rw [hee]; rfl
    · rw [hst] at habs; cases habs
    · constructor
      · rw [hrun]; rfl
      · rw [classifier_shape, hrun]; rfl
  · have hfail : (ExtractorAgent.run ctx e).status = .EXTRACTION_FAILED := by rw [hrun]
    have hproc : processEvent ctx e = some (ExtractorAgent.run ctx e) := by
      simp only [processEvent, processEventWith, hfail, statusHasFailed_eq_true, if_true]
    rw [hproc] at hout
    cases hout
    refine ⟨Or.inr ⟨⟨?_, ?_⟩, ?_⟩, fun habs => ?_, fun _ => ?_, fun habs => ?_⟩
    · rw [hrun]
    · rw [hrun]; rfl
    · rintro ⟨habs, -⟩; rw [hrun] at habs; cases habs
    · rw [hrun] at habs; cases habs
    · rw [hrun]; exact hent
    · rw [hrun] at habs; cases habs

def c7Ctx : PipelineCtx :=
  { R := loOracle
    readFile := fun _ => .error "read failure"
    today := 0, now := 0, moveFails := fun _ => false }

def c7Ev : Event :=
  { status := .INGESTED, filename := "broken.txt",
    original_path := "documents_to_process/broken.txt",
    size_bytes := 1, ingestion_time := 0 }

def c7Out : Event :=
  { c7Ev with status := .EXTRACTION_FAILED, error_message := some "read failure" }

/-- C7 witness: a concrete failing extraction exit. -/
theorem C7_witness :
    (((c7Out.status = .ROUTED ∧ c7Out.classification.isSome ∧ c7Out.routing_info.isSome) ∧
       ¬(c7Out.status = .EXTRACTION_FAILED ∧ c7Out.error_message.isSome)) ∨
     ((c7Out.status = .EXTRACTION_FAILED ∧ c7Out.error_message.isSome) ∧
       ¬(c7Out.status = .ROUTED ∧ c7Out.classification.isSome ∧ c7Out.routing_info.isSome))) ∧
    (c7Out.status = .ROUTED → c7Out.extracted_entities.isSome) ∧
    (c7Out.status = .EXTRACTION_FAILED → c7Out.extracted_entities = none) ∧
    ((ExtractorAgent.run c7Ctx c7Ev).status = .EXTRACTED →
      (ExtractorAgent.run c7Ctx c7Ev).extracted_entities.isSome ∧
      (ClassifierAgent.run c7Ctx.R (ExtractorAgent.run c7Ctx c7Ev)).extracted_entities.isSome) :=
  C7_exit_dichotomy c7Ctx c7Ev c7Out rfl rfl (by decide)

/-- The OCR placeholder text contains the keyword "invoice" whatever the
filename spliced into it. -/
theorem ocr_contains_invoice (filename : String) :
    strContains (lowerStr (simulatedOcrText filename)) "invoice" = true := by
  unfold strContains lowerStr simulatedOcrText
  show charsHasSub "invoice".data
    ((("Simulated OCR content for " ++ filename).data ++
      (". Contains keywords: invoice, contract, or resume.").data).map Char.toLower) = true
  rw [List.map_append]
  exact charsHasSub_append_right _ _ (by decide) _

/-- C9: for an ingested file whose name does not end in ".txt", the extractor
substitutes the fixed placeholder text, that text contains the keyword
"invoice", and the classifier therefore labels the document `Invoice`. -/
theorem C9_non_txt_invoice (ctx : PipelineCtx) (e : Event)
    (h : strEndsWith e.original_path ".txt" = false) :
    (ExtractorAgent.run ctx e).extracted_text = some (simulatedOcrText e.filename) ∧
    strContains (lowerStr (simulatedOcrText e.filename)) "invoice" = true ∧
    ((ClassifierAgent.run ctx.R (ExtractorAgent.run ctx e)).classification.map
      Classification.document_type) = some "Invoice" := by
  have hres : resolveContent ctx e = .ok (simulatedOcrText e.filename) := by
    simp [resolveContent, h]
  have hrun : ExtractorAgent.run ctx e =
      { e with status := .EXTRACTED
               extracted_text := some (simulatedOcrText e.filename)
               extracted_entities :=
                 some (mock_llm_entity_extraction ctx.R ctx.today (simulatedOcrText e.filename)) } := by
    simp [ExtractorAgent.run, ExtractorAgent.runWith, hres]
  refine ⟨by rw [hrun], ocr_contains_invoice e.filename, ?_⟩
  rw [classifier_shape, hrun]
  simp only [classifyPair_fst, Option.map_some]
  show some (classifyDocType (lowerStr (simulatedOcrText e.filename))) = some "Invoice"
  rw [classifyDocType, if_pos (ocr_contains_invoice e.filename)]

def c9Ctx : PipelineCtx :=
  { R := loOracle
    readFile := fun _ => .ok "unused"
    today := 0, now := 0, moveFails := fun _ => false }

def c9Ev : Event :=
  { status := .INGESTED, filename := "scan.pdf",
    original_path := "documents_to_process/scan.pdf",
    size_bytes := 4, ingestion_time := 0 }

/-- C9 witness: a concrete `.pdf` intake file. -/
theorem C9_witness :
    (ExtractorAgent.run c9Ctx c9Ev).extracted_text = some (simulatedOcrText c9Ev.filename) ∧
    strContains (lowerStr (simulatedOcrText c9Ev.filename)) "invoice" = true ∧
    ((ClassifierAgent.run c9Ctx.R (ExtractorAgent.run c9Ctx c9Ev)).classification.map
      Classification.document_type) = some "Invoice" :=
  C9_non_txt_invoice c9Ctx c9Ev (by decide)

/-- The `action_taken` string the router produces for an event (ignoring the
`routed_at` timestamp). -/
def routedAction (now : Nat) (e : Event) : Option String :=
  (RouterAgent.run now e).bind (fun out => out.routing_info.map RoutingInfo.action_taken)

def c6EvA : Event :=
  { status := .CLASSIFIED, filename := "a.pdf", original_path := "documents_to_process/a.pdf",
    size_bytes := 1, ingestion_time := 0,
    extracted_entities := some [("InvoiceID", .str "INV-1111")],
    classification := some { document_type := "Invoice", confidence := 95/100 } }

def c6EvB : Event :=
  { status := .CLASSIFIED, filename := "b.pdf", original_path := "documents_to_process/b.pdf",
    size_bytes := 1, ingestion_time := 0,
    extracted_entities := some [("InvoiceID", .str "INV-2222")],
    classification := some { document_type := "Invoice", confidence := 95/100 } }

/-- C6 counterexample: two `CLASSIFIED` events with the same
`document_type = Invoice` but different `extracted_entities` receive different
`action_taken` strings (timestamps ignored), so the routing action is not a
function of `document_type` alone. -/
theorem C6_counterexample :
    eventDocType c6EvA = eventDocType c6EvB ∧
    routedAction 0 c6EvA ≠ routedAction 0 c6EvB := by
  refine ⟨rfl, ?_⟩
  decide

/-- C6 (amended): the routing action is a fixed table lookup on
`document_type`, except that the Invoice action embeds the event's
`extracted_entities`: two events with equal non-Invoice document types get
equal action strings (ignoring `routed_at`); an Invoice event's action is the
fixed ERP template applied to its own entities; Unknown or unmapped types get
the manual-review action. -/
theorem C6_router_action_table :
    (∀ (now1 now2 : Nat) (e1 e2 : Event), eventDocType e1 = eventDocType e2 →
       eventDocType e1 ≠ "Invoice" → routedAction now1 e1 = routedAction now2 e2) ∧
    (∀ (now : Nat) (e : Event) (ents : Entities), eventDocType e = "Invoice" →
       e.extracted_entities = some ents →
       routedAction now e = some ("Calling ERP API with invoice data: " ++ renderEntities ents)) ∧
    (∀ (now : Nat) (e : Event), eventDocType e ≠ "Invoice" → eventDocType e ≠ "Contract" →
       eventDocType e ≠ "Resume" →
       routedAction now e = some "Flagging document for manual review.") := by
  refine ⟨?_, ?_, ?_⟩
  · intro now1 now2 e1 e2 h hni
    unfold routedAction RouterAgent.run
    rw [← h]
    split_ifs with h1 h2 h3 <;> first
      | exact absurd h1 hni
      | simp [routerOut]
  · intro now e ents hdt hent
    unfold routedAction RouterAgent.run
    rw [if_pos hdt, hent]
    simp [routerOut]
  · intro now e h1 h2 h3
    unfold routedAction RouterAgent.run
    rw [if_neg h1, if_neg h2, if_neg h3]
    simp [routerOut]

def c6EvC : Event :=
  { status := .CLASSIFIED, filename := "c.txt", original_path := "documents_to_process/c.txt",
    size_bytes := 1, ingestion_time := 0,
    extracted_entities := some [("Term", .str "2 Years")],
    classification := some { document_type := "Contract", confidence := 9/10 } }

def c6EvD : Event :=
  { status := .CLASSIFIED, filename := "d.txt", original_path := "documents_to_process/d.txt",
    size_bytes := 2, ingestion_time := 0,
    extracted_entities := some [("Term", .str "5 Years")],
    classification := some { document_type := "Contract", confidence := 86/100 } }

def c6EvU : Event :=
  { status := .CLASSIFIED, filename := "u.txt", original_path := "documents_to_process/u.txt",
    size_bytes := 2, ingestion_time := 0,
    extracted_entities := some [],
    classification := some { document_type := "Unknown", confidence := 1/2 } }

/-- C6 witness: concrete Contract, Invoice and Unknown classifications. -/
theorem C6_witness :
    routedAction 1 c6EvC = routedAction 2 c6EvD ∧
    routedAction 0 c6EvA =
      some ("Calling ERP API with invoice data: " ++
        renderEntities [("InvoiceID", EntityValue.str "INV-1111")]) ∧
    routedAction 5 c6EvU = some "Flagging document for manual review." :=
  ⟨C6_router_action_table.1 1 2 c6EvC c6EvD rfl (by decide),
   C6_router_action_table.2.1 0 c6EvA _ rfl rfl,
   C6_router_action_table.2.2 5 c6EvU (by decide) (by decide) (by decide)⟩

def c1Ctx : PipelineCtx :=
  { R := loOracle
    readFile := fun _ => .error "Permission denied"
    today := 0, now := 0, moveFails := fun _ => false }

def c1World : World :=
  { intake := [{ name := "doc.txt", isFile := true, size := .ok 5 }], processed := [] }

/-- C1 counterexample: an intake `.txt` file whose read raises exits the
pipeline as `EXTRACTION_FAILED`, yet the orchestrator still moves it out of
the intake directory into the processed directory — contradicting the claim
that only `ROUTED` events have their file relocated. -/
theorem C1_counterexample :
    ((pollCycle c1Ctx c1World).2.map Event.status) = some .EXTRACTION_FAILED ∧
    (pollCycle c1Ctx c1World).1.intake = [] ∧
    (pollCycle c1Ctx c1World).1.processed = ["doc.txt"] := by
  decide

/-- C1 (amended): the orchestrator attempts archival for every event that
exits the pipeline, regardless of status (the move at src/main.py:289-299 is
outside the failure guard): whenever the rename does not itself fail, the
source file is removed from the intake listing and its name appended to the
processed directory — also for `EXTRACTION_FAILED` events. -/
theorem C1_move_attempted_regardless (ctx : PipelineCtx) (w : World) (ev out : Event)
    (hi : IngestorAgent.run DOCS_TO_PROCESS_DIR ctx.now w.intake = some ev)
    (hp : processEvent ctx ev = some out)
    (hm : ctx.moveFails out.filename = false) :
    (pollCycle ctx w).1.intake = w.intake.eraseP (fun d => d.name == out.filename) ∧
    (pollCycle ctx w).1.processed = w.processed ++ [out.filename] := by
  simp [pollCycle, hi, hp, hm]

def c1Ev : Event :=
  { status := .INGESTED, filename := "doc.txt",
    original_path := "documents_to_process/doc.txt",
    size_bytes := 5, ingestion_time := 0 }

def c1Out : Event :=
  { c1Ev with status := .EXTRACTION_FAILED, error_message := some "Permission denied" }

/-- C1 witness: the amended claim at the concrete failing intake file. -/
theorem C1_witness :
    (pollCycle c1Ctx c1World).1.intake =
      c1World.intake.eraseP (fun d => d.name == c1Out.filename) ∧
    (pollCycle c1Ctx c1World).1.processed = c1World.processed ++ [c1Out.filename] :=
  C1_move_attempted_regardless c1Ctx c1World c1Ev c1Out (by decide) (by decide) rfl

/-- The ingestor claims some accessible regular file when one exists; the
claimed event is built from that entry alone. -/
theorem ingestor_claims_some (dir : String) (now : Nat) :
    ∀ entries : List DirEntry,
      (∀ d ∈ entries, d.isFile = true → ∃ n, d.size = Except.ok n) →
      (∃ d ∈ entries, d.isFile = true) →
      ∃ d, d ∈ entries ∧ d.isFile = true ∧
        IngestorAgent.run dir now entries = some
          { status := .INGESTED, filename := d.name,
            original_path := dir ++ "/" ++ d.name,
            size_bytes := d.size.toOption.getD 0, ingestion_time := now } := by
  intro entries
  induction entries with
  | nil => rintro _ ⟨d, hd, -⟩; cases hd
  | cons a rest ih =>
      intro hsz hex
      by_cases ha : a.isFile = true
      · obtain ⟨n, hn⟩ := hsz a (List.mem_cons_self a rest) ha
        refine ⟨a, List.mem_cons_self a rest, ha, ?_⟩
        simp [IngestorAgent.run, ha, hn]
        rfl
      · have hex2 : ∃ d ∈ rest, d.isFile = true := by
          obtain ⟨d, hd, hdf⟩ := hex
          rcases List.mem_cons.mp hd with h | h
          · subst h; exact absurd hdf ha
          · exact ⟨d, h, hdf⟩
        obtain ⟨d, hd, hdf, hrun⟩ :=
          ih (fun d hd2 => hsz d (List.mem_cons_of_mem _ hd2)) hex2
        refine ⟨d, List.mem_cons_of_mem _ hd, hdf, ?_⟩
        simpa [IngestorAgent.run, ha] using hrun

/-- The pipeline maps every event to a final event (no stage gets stuck) and
preserves its filename. -/
theorem processEvent_total (ctx : PipelineCtx) (e : Event) :
    ∃ out, processEvent ctx e = some out ∧ out.filename = e.filename := by
  rcases extractor_shape ctx e with ⟨t, _, hrun⟩ | ⟨m, _, hrun⟩
  · have hst : (ExtractorAgent.run ctx e).status = .EXTRACTED := by rw [hrun]
    have hproc : processEvent ctx e =
        RouterAgent.run ctx.now (ClassifierAgent.run ctx.R (ExtractorAgent.run ctx e)) := by
      simp only [processEvent, processEventWith, hst, statusHasFailed_EXTRACTED,
        Bool.false_eq_true, if_false]
    have hent : (ClassifierAgent.run ctx.R (ExtractorAgent.run ctx e)).extracted_entities.isSome := by
      rw [classifier_shape, hrun]; rfl
    obtain ⟨out, hout⟩ :=
      Option.isSome_iff_exists.mp (router_isSome_of_entities ctx.now _ hent)
    refine ⟨out, by rw [hproc, hout], ?_⟩
    have hfn := (router_some_shape _ _ _ hout).2.2.2.2.1
    rw [hfn, classifier_shape, hrun]
  · refine ⟨ExtractorAgent.run ctx e, ?_, by rw [hrun]⟩
    have hfail : (ExtractorAgent.run ctx e).status = .EXTRACTION_FAILED := by rw [hrun]
    simp only [processEvent, processEventWith, hfail, statusHasFailed_eq_true, if_true]

theorem nodup_const_length_le {α : Type} (c : α) :
    ∀ l : List α, l.Nodup → (∀ x ∈ l, x = c) → l.length ≤ 1
  | [], _, _ => by simp
  | [_], _, _ => by simp
  | x :: y :: t, hnd, hall => by
      exfalso
      have hx : x = c := hall x (by simp)
      have hy : y = c := hall y (by simp)
      have hne : x ≠ y := by
        have h2 := List.nodup_cons.mp hnd
        exact fun he => h2.1 (he ▸ List.mem_cons_self y t)
      exact hne (hx.trans hy.symm)

/-- In a listing with distinct names holding at least two regular files,
there is a regular file whose name differs from any given name. -/
theorem exists_second_regular (l : List DirEntry)
    (hnodup : (l.map DirEntry.name).Nodup)
    (h2 : 2 ≤ (l.filter (fun d => d.isFile)).length)
    (d : DirEntry) :
    ∃ d2 ∈ l, d2.isFile = true ∧ d2.name ≠ d.name := by
  by_contra hcon
  push_neg at hcon
  have hsub : ((l.filter (fun d => d.isFile)).map DirEntry.name).Nodup :=
    List.Nodup.sublist (List.Sublist.map DirEntry.name (List.filter_sublist l)) hnodup
  have hall : ∀ x ∈ (l.filter (fun d => d.isFile)).map DirEntry.name, x = d.name := by
    intro x hx
    obtain ⟨d2, hd2, hxeq⟩ := List.mem_map.mp hx
    obtain ⟨hd2l, hd2f⟩ := List.mem_filter.mp hd2
    subst hxeq
    exact hcon d2 hd2l (by simpa using hd2f)
  have hle := nodup_const_length_le d.name _ hsub hall
  rw [List.length_map] at hle
  omega

/-- C8: in a polling cycle whose intake directory holds two or more regular
files (with distinct names and readable sizes, and with renames succeeding),
exactly one file is claimed and fully processed: the cycle emits one event,
removes exactly that file's entry from the intake listing, appends exactly
that name to the processed directory, leaves every other file untouched, and
a further regular file remains for a later cycle. -/
theorem C8_one_file_per_cycle (ctx : PipelineCtx) (w : World)
    (hnodup : (w.intake.map DirEntry.name).Nodup)
    (hsz : ∀ d ∈ w.intake, d.isFile = true → ∃ n, d.size = Except.ok n)
    (hmove : ∀ f, ctx.moveFails f = false)
    (htwo : 2 ≤ (w.intake.filter (fun d => d.isFile)).length) :
    ∃ out : Event, (pollCycle ctx w).2 = some out ∧
      ∃ d, d ∈ w.intake ∧ d.isFile = true ∧ out.filename = d.name ∧
        (pollCycle ctx w).1.intake = w.intake.eraseP (fun x => x.name == d.name) ∧
        (pollCycle ctx w).1.processed = w.processed ++ [d.name] ∧
        (∀ d2 ∈ w.intake, d2.name ≠ d.name → d2 ∈ (pollCycle ctx w).1.intake) ∧
        (pollCycle ctx w).1.intake.length + 1 = w.intake.length ∧
        ∃ d2 ∈ (pollCycle ctx w).1.intake, d2.isFile = true ∧ d2.name ≠ d.name := by
  have hex : ∃ d ∈ w.intake, d.isFile = true := by
    have hpos : 0 < (w.intake.filter (fun d => d.isFile)).length := by omega
    obtain ⟨d, hd⟩ := List.exists_mem_of_length_pos hpos
    obtain ⟨hdl, hdf⟩ := List.mem_filter.mp hd
    exact ⟨d, hdl, by simpa using hdf⟩
  obtain ⟨d, hd, hdf, hrun⟩ :=
    ingestor_claims_some DOCS_TO_PROCESS_DIR ctx.now w.intake hsz hex
  obtain ⟨out, hp, hfn⟩ := processEvent_total ctx
    { status := .INGESTED, filename := d.name,
      original_path := DOCS_TO_PROCESS_DIR ++ "/" ++ d.name,
      size_bytes := d.size.toOption.getD 0, ingestion_time := ctx.now }
  have hfn2 : out.filename = d.name := hfn
  have hcycle : pollCycle ctx w =
      (⟨w.intake.eraseP (fun x => x.name == out.filename),
        w.processed ++ [out.filename]⟩, some out) := by
    simp [pollCycle, hrun, hp, hmove]
  rw [hcycle]
  refine ⟨out, rfl, d, hd, hdf, hfn2, ?_, ?_, ?_, ?_, ?_⟩
  · rw [hfn2]
  · rw [hfn2]
  · intro d2 hd2 hne
    rw [hfn2]
    exact (List.mem_eraseP_of_neg (by simpa using hne)).mpr hd2
  · rw [hfn2]
    have := @List.length_eraseP_add_one DirEntry (fun x => x.name == d.name) w.intake d hd
      (by simp)
    simpa using this
  · obtain ⟨d2, hd2, hd2f, hd2ne⟩ := exists_second_regular w.intake hnodup htwo d
    refine ⟨d2, ?_, hd2f, hd2ne⟩
    rw [hfn2]
    exact (List.mem_eraseP_of_neg (by simpa using hd2ne)).mpr hd2

def c8Ctx : PipelineCtx :=
  { R := loOracle
    readFile := fun _ => .ok "resume text"
    today := 0, now := 2, moveFails := fun _ => false }

def c8World : World :=
  { intake := [{ name := "a.txt", isFile := true, size := .ok 5 },
               { name := "b.txt", isFile := true, size := .ok 3 }],
    processed := [] }

/-- C8 witness: a concrete cycle over an intake directory with two regular
files. -/
theorem C8_witness :
    ∃ out : Event, (pollCycle c8Ctx c8World).2 = some out ∧
      ∃ d, d ∈ c8World.intake ∧ d.isFile = true ∧ out.filename = d.name ∧
        (pollCycle c8Ctx c8World).1.intake =
          c8World.intake.eraseP (fun x => x.name == d.name) ∧
        (pollCycle c8Ctx c8World).1.processed = c8World.processed ++ [d.name] ∧
        (∀ d2 ∈ c8World.intake, d2.name ≠ d.name →
          d2 ∈ (pollCycle c8Ctx c8World).1.intake) ∧
        (pollCycle c8Ctx c8World).1.intake.length + 1 = c8World.intake.length ∧
        ∃ d2 ∈ (pollCycle c8Ctx c8World).1.intake, d2.isFile = true ∧ d2.name ≠ d.name :=
  C8_one_file_per_cycle c8Ctx c8World (by decide)
    (by
      intro d hd _
      rcases List.mem_cons.mp hd with h | h
      · subst h; exact ⟨5, rfl⟩
      · rcases List.mem_cons.mp h with h2 | h2
        · subst h2; exact ⟨3, rfl⟩
        · cases h2)
    (fun _ => rfl)
    (by decide)
